import Mathlib

/-!
Verification of the NewRelic uploader plugin (`bztnewrelic/newrelicplugin.py`).

Shallow embedding: the stateful Python code is modelled as pure Lean
functions with explicit state passing.  External effects (the metric
client, the GraphQL client, the environment, the filesystem) are modelled
as oracle inputs: each call site receives the outcome the external world
would have produced.  An exception raised by an external call is the
`none` / `Except.error` case of the corresponding oracle.
-/

namespace NewRelic

/-- Python exception classes relevant to the plugin.  `otherExc` stands for
any exception outside the `NETWORK_PROBLEMS` tuple. -/
inductive PyExc where
  | ioError
  | urlError
  | sslError
  | readTimeout
  | taurusNetworkError
  | otherExc
deriving DecidableEq, Repr

/-- Membership in the `NETWORK_PROBLEMS` tuple
`(IOError, URLError, SSLError, ReadTimeout, TaurusNetworkError)`. -/
def isNetworkProblem : PyExc → Bool
  | .otherExc => false
  | _ => true

/-- What `except (IOError, TaurusNetworkError)` catches.  In Python,
`URLError`, `SSLError` and `ReadTimeout` are all subclasses of
`OSError`/`IOError`, so this clause catches them as well. -/
def caughtByIOErrorOrTNE : PyExc → Bool
  | .otherExc => false
  | _ => true

/-- Loop body of `Session._request`.  `attempts i` is the outcome of the
`i`-th `metric_client.send_batch` call (`none` = success, `some e` = the
exception raised).  The second component of the result counts how many
`send_batch` calls were made.  The code catches `BaseException`, so every
exception class is subject to the retry check `if retry and retry_limit`. -/
def requestLoop (attempts : Nat → Option PyExc) (retry : Bool) :
    Nat → Nat → Except PyExc Nat × Nat
  | i, 0 =>
    match attempts i with
    | none => (Except.ok 0, i + 1)
    | some e => (Except.error e, i + 1)
  | i, b + 1 =>
    match attempts i with
    | none => (Except.ok 0, i + 1)
    | some e =>
      if retry then requestLoop attempts retry (i + 1) b
      else (Except.error e, i + 1)

/-- `Session._request`: the loop starts with `retry_limit = self._retry_limit`
(5 by default); `retryLimit` is passed explicitly here. -/
def Session.request (attempts : Nat → Option PyExc) (retry : Bool)
    (retryLimit : Nat) : Except PyExc Nat × Nat :=
  requestLoop attempts retry 0 retryLimit

/-- A tag value: the plugin stores both strings (label, response code) and
numbers (timestamp) in the tag dictionaries. -/
inductive TagVal where
  | s (v : String)
  | n (v : Nat)
deriving DecidableEq, Repr

/-- Tag dictionaries are modelled as association lists. -/
abbrev Tags := List (String × TagVal)

/-- `dict[k] = v`: the key is (re)bound to `v`. -/
def setTag (tags : Tags) (k : String) (v : TagVal) : Tags :=
  (k, v) :: tags.filter (fun kv => kv.1 != k)

/-- One `GaugeMetric(name, value, tags, end_time_ms)` record. -/
structure GaugeMetric where
  name : String
  value : Nat
  tags : Tags
  end_time_ms : Nat
deriving DecidableEq, Repr

/-- The fields of a `KPISet` read by the serializer.  Percentiles and
response codes are the dictionaries `KPISet.PERCENTILES` and
`KPISet.RESP_CODES`, modelled as association lists in iteration order. -/
structure KPISet where
  sample_count : Nat
  concurrency : Nat
  failures : Nat
  avg_resp_time : Nat
  avg_latency : Nat
  avg_conn_time : Nat
  percentiles : List (String × Nat)
  resp_codes : List (String × Nat)
deriving DecidableEq, Repr

/-- Dictionary lookup on an association list. -/
def plookup (ps : List (String × Nat)) (k : String) : Option Nat :=
  (ps.find? (fun kv => kv.1 == k)).map (fun kv => kv.2)

/-- `DatapointSerializerNF.__convert_current_data(item, timestamp, nrtags)`
with `self.multi = multi`.  The `timestamp` argument is already scaled by
the caller (`time_stamp * self.multi` in `get_kpi_body`). -/
def convert_current_data (multi : Nat) (item : KPISet) (timestamp : Nat)
    (nrtags : Tags) : List GaugeMetric :=
  let tmin := match plookup item.percentiles "0.0" with
    | some v => multi * v
    | none => 0
  let tmax := match plookup item.percentiles "100.0" with
    | some v => multi * v
    | none => 0
  let tavg := multi * item.avg_resp_time
  let tlat := multi * item.avg_latency
  let tconn := multi * item.avg_conn_time
  let tags := setTag nrtags "timestamp" (TagVal.n timestamp)
  [ ⟨"bztRPS", item.sample_count, tags, timestamp⟩,
    ⟨"bztThreads", item.concurrency, tags, timestamp⟩,
    ⟨"bztFailures", item.failures, tags, timestamp⟩,
    ⟨"bztmin", tmin, tags, timestamp⟩,
    ⟨"bztmax", tmax, tags, timestamp⟩,
    ⟨"bztavg", tavg, tags, timestamp⟩,
    ⟨"bztlat", tlat, tags, timestamp⟩,
    ⟨"bztconn", tconn, tags, timestamp⟩ ]
  ++ item.percentiles.map
      (fun pv => ⟨"bztp" ++ pv.1, multi * pv.2, tags, timestamp⟩)
  ++ item.resp_codes.map
      (fun rc => ⟨"bztcode", rc.2, setTag tags "rc" (TagVal.s rc.1), timestamp⟩)

/-- `DatapointSerializerNF.__convert_cumulative_data(item, timestamp, nrtags)`:
percentile records only, named `bztpc<p>`. -/
def convert_cumulative_data (multi : Nat) (item : KPISet) (timestamp : Nat)
    (nrtags : Tags) : List GaugeMetric :=
  let tags := setTag nrtags "timestamp" (TagVal.n timestamp)
  item.percentiles.map
    (fun pv => ⟨"bztpc" ++ pv.1, multi * pv.2, tags, timestamp⟩)

/-- One sample window (`bzt.modules.aggregator.DataPoint`): a timestamp and
the per-label current and cumulative `KPISet` dictionaries. -/
structure DataPoint where
  timestamp : Nat
  current : List (String × KPISet)
  cumulative : List (String × KPISet)
deriving DecidableEq, Repr

/-- `label or 'OVERALL'`: the empty label falls back to the sentinel. -/
def labelOrOverall (l : String) : String :=
  if l == "" then "OVERALL" else l

/-- The loop body of `get_kpi_body` for one window: current-interval
records then cumulative-interval records, each label getting a deep copy
of the caller-supplied tags plus its own `label` tag. -/
def convert_datapoint (multi : Nat) (tags : Tags) (dp : DataPoint) :
    List GaugeMetric :=
  dp.current.flatMap (fun lk =>
    convert_current_data multi lk.2 (dp.timestamp * multi)
      (setTag tags "label" (TagVal.s (labelOrOverall lk.1))))
  ++ dp.cumulative.flatMap (fun lk =>
    convert_cumulative_data multi lk.2 (dp.timestamp * multi)
      (setTag tags "label" (TagVal.s (labelOrOverall lk.1))))

/-- The uploader's timestamp bounds (`self.first_ts`, `self.last_ts`). -/
structure TsBounds where
  first_ts : Nat
  last_ts : Nat
deriving DecidableEq, Repr

/-- `sys.maxsize`, the initial value of `first_ts`. -/
def sysMaxsize : Nat := 2 ^ 63 - 1

/-- `DatapointSerializerNF.get_kpi_body(data_buffer, tags, is_final)`.
Returns the record list and the updated owner bounds: on a non-empty
buffer, `first_ts = min(first_ts, data_buffer[0][TIMESTAMP])` and
`last_ts = max(last_ts, data_buffer[-1][TIMESTAMP])`; on an empty buffer
nothing happens. -/
def get_kpi_body (multi : Nat) (st : TsBounds) (data_buffer : List DataPoint)
    (tags : Tags) (_is_final : Bool) : List GaugeMetric × TsBounds :=
  match data_buffer with
  | [] => ([], st)
  | dp :: rest =>
    let st1 : TsBounds :=
      ⟨min st.first_ts dp.timestamp,
       max st.last_ts ((dp :: rest).getLastD dp).timestamp⟩
    ((dp :: rest).flatMap (convert_datapoint multi tags), st1)

/-- Window timestamps inside a buffer are non-decreasing (the aggregator
appends windows in time order). -/
def tsMono (l : List DataPoint) : Prop :=
  l.Pairwise (fun a b => a.timestamp ≤ b.timestamp)

/-- A sequence of serialization calls, threading the timestamp bounds. -/
def serialize_runs (multi : Nat) (tags : Tags) (st : TsBounds)
    (runs : List (List DataPoint)) : TsBounds :=
  runs.foldl (fun s buf => (get_kpi_body multi s buf tags false).2) st

/-- `NewRelicUploader.token_processor` (and the structurally identical
`api_token_processor`).  `config` is `settings.get("token", "")`; `env` is
the environment variable (`none` when unset, raising `KeyError`);
`tokenFile` is `settings.get("token-file", "")`; `fileContents` is the raw
file text (`none` when `open`/`read` raises). -/
def token_processor (config : String) (env : Option String)
    (tokenFile : String) (fileContents : Option String) : Option String :=
  if config ≠ "" then some config
  else
    match env with
    | some t => some t
    | none =>
      if tokenFile ≠ "" then
        match fileContents with
        | some c => some c.trim
        | none => none
      else none

/-- One entity of an `entitySearch` response. -/
structure Entity where
  guid : String
  permalink : String
deriving DecidableEq, Repr

/-- A well-formed `entitySearch` response: `count` and the entity list. -/
structure SearchResult where
  count : Nat
  entities : List Entity
deriving DecidableEq, Repr

/-- The observable outcome of `DashboardManager.dashboard_link`: the value
returned (`none` when the function falls through the `except` handler and
returns nothing) and how many times `dashboard_create` was invoked. -/
structure LinkOutcome where
  link : Option String
  createCalls : Nat
deriving DecidableEq, Repr

/-- `DashboardManager.dashboard_link(project)` given the search response.
On `count > 0` the code reads `entities[1]`; a missing index raises
`IndexError`, which the surrounding `except` swallows, so the function
returns `None`.  On `count = 0` it returns `dashboard_create(project)`,
whose result is `createResult` (that call never raises, see
`dashboard_create`). -/
def dashboard_link (res : SearchResult) (createResult : String) : LinkOutcome :=
  if res.count > 0 then
    match res.entities[1]? with
    | some e => ⟨some e.permalink, 0⟩
    | none => ⟨none, 0⟩
  else ⟨some createResult, 1⟩

/-- Polling loop of `DashboardManager.dashboard_create`: `attempts i` is
the outcome of the `i`-th search-by-parentId query, `some (permalink,
guid)` on success and `none` when the query raises or the indexing fails.
The budget counts the remaining retries (`retry = self.retry_limit`). -/
def dashboard_poll (attempts : Nat → Option (String × String)) :
    Nat → Nat → String
  | i, 0 =>
    match attempts i with
    | some pg => pg.1
    | none => "https://one.newrelic.com/dashboards"
  | i, r + 1 =>
    match attempts i with
    | some pg => pg.1
    | none => dashboard_poll attempts (i + 1) r

/-- `DashboardManager.dashboard_create(project)`.  `createGuid` is the
guid extracted from the creation mutation (`none` when anything up to and
including the guid extraction raises: the outer `except BaseException`
returns the fallback URL).  Template substitution (`str.replace`) cannot
raise and is elided. -/
def dashboard_create (retry_limit : Nat) (createGuid : Option String)
    (attempts : Nat → Option (String × String)) : String :=
  match createGuid with
  | none => "https://one.newrelic.com/dashboards"
  | some _ => dashboard_poll attempts 0 retry_limit

/-- How a code path terminates: normally, by `exit(code)`, or by raising. -/
inductive ExitOutcome where
  | normal
  | exits (code : Nat)
  | raises (e : PyExc)
deriving DecidableEq, Repr

/-- `Session.client_init`: `MetricClient(self.token)` in a `try`; on any
exception the process exits with status 0. -/
def client_init (constructOk : Bool) : ExitOutcome :=
  if constructOk then ExitOutcome.normal else ExitOutcome.exits 0

/-- The response check in `Session.send_kpi_data`: a response different
from 0 exits the process with status 1. -/
def send_kpi_check (response : Nat) : ExitOutcome :=
  if response ≠ 0 then ExitOutcome.exits 1 else ExitOutcome.normal

/-- `Session.send_kpi_data(data)`: `response = self._request(data)`, an
exception propagates, otherwise the response value is checked. -/
def send_kpi_data (reqResult : Except PyExc Nat) : ExitOutcome :=
  match reqResult with
  | Except.error e => ExitOutcome.raises e
  | Except.ok n => send_kpi_check n

/-- The observable outcome of `DashboardManager.create_pdf`. -/
inductive PdfOutcome where
  | saved
  | writeWarning
  | linkWarning
deriving DecidableEq, Repr

/-- The loop `while pdf_link is None and retry != 0: ...; retry -= 1` of
`create_pdf`: the body only decrements the counter, so the link value is
returned unchanged once the counter (or the `None` test) stops the loop. -/
def pdf_retry_loop (pdf_link : Option String) : Nat → Option String
  | 0 => pdf_link
  | r + 1 => if pdf_link = none then pdf_retry_loop pdf_link r else pdf_link

/-- `DashboardManager.create_pdf(time_start, time_end)`.  `linkQuery i` is
the outcome the `i`-th snapshot-URL mutation would have: `none` when the
query raises, `some l` when it returns link `l` (`l = none` models a null
link).  The code only ever issues query 0.  `fetch` tells whether
`requests.get` on a given link succeeds (fetching a `None` link raises,
landing in the outer handler); `writeOk` tells whether writing the file
succeeds (its failure is caught by the inner handler). -/
def create_pdf (retry_limit : Nat) (linkQuery : Nat → Option (Option String))
    (fetch : String → Bool) (writeOk : Bool) : PdfOutcome :=
  match linkQuery 0 with
  | none => PdfOutcome.linkWarning
  | some link0 =>
    match pdf_retry_loop link0 retry_limit with
    | none => PdfOutcome.linkWarning
    | some link =>
      if fetch link then
        if writeOk then PdfOutcome.saved else PdfOutcome.writeWarning
      else PdfOutcome.linkWarning

/-- `NewRelicUploader.__send_data(data)`: serialize the buffer (updating
the owner's timestamp bounds) and send; `sendOutcome` is what
`send_kpi_data` does with the network (`none` = success, `some e` = the
exception that reaches the decorator). -/
def send_data (multi : Nat) (tags : Tags) (st : TsBounds)
    (buffer : List DataPoint) (sendOutcome : Option PyExc) :
    TsBounds × Option PyExc :=
  ((get_kpi_body multi st buffer tags false).2, sendOutcome)

/-- The observable trace of one decorated `__send_data` call: the final
timestamp bounds, the number of times the wrapped method ran, the sleep
performed between the attempts (if any), and the exception propagated to
the caller (if any). -/
structure RetryTrace where
  state : TsBounds
  attempts : Nat
  slept : Option Nat
  propagated : Option PyExc
deriving DecidableEq, Repr

/-- The `send_with_retry` decorator around `__send_data`: the first
attempt runs; an exception caught by `except (IOError,
TaurusNetworkError)` leads to `time.sleep(self._session.timeout)` and a
second full run of the method on the same buffer; a second-attempt
exception in `NETWORK_PROBLEMS` is swallowed, any other one propagates.
An uncaught first-attempt exception propagates immediately. -/
def send_with_retry (multi : Nat) (tags : Tags) (timeout : Nat)
    (st : TsBounds) (buffer : List DataPoint) (o1 o2 : Option PyExc) :
    RetryTrace :=
  let r1 := send_data multi tags st buffer o1
  match r1.2 with
  | none => ⟨r1.1, 1, none, none⟩
  | some e =>
    if caughtByIOErrorOrTNE e then
      let r2 := send_data multi tags r1.1 buffer o2
      match r2.2 with
      | none => ⟨r2.1, 2, some timeout, none⟩
      | some e2 =>
        if isNetworkProblem e2 then ⟨r2.1, 2, some timeout, none⟩
        else ⟨r2.1, 2, some timeout, some e2⟩
    else ⟨r1.1, 1, none, some e⟩

/-- The concrete sample-window statistics of claim C2. -/
def c2exampleKPI : KPISet :=
  { sample_count := 100
    concurrency := 10
    failures := 1
    avg_resp_time := 50
    avg_latency := 40
    avg_conn_time := 5
    percentiles := [("0.0", 10), ("100.0", 500), ("50.0", 120)]
    resp_codes := [("200", 99), ("500", 1)] }

theorem caughtByIOErrorOrTNE_eq_isNetworkProblem (e : PyExc) :
    caughtByIOErrorOrTNE e = isNetworkProblem e := by
  cases e <;> rfl

theorem requestLoop_all_fail (attempts : Nat → Option PyExc) (e : Nat → PyExc)
    (hfail : ∀ i, attempts i = some (e i)) :
    ∀ b i, requestLoop attempts true i b = (Except.error (e (i + b)), i + b + 1) := by
  intro b
  induction b with
  | zero =>
    intro i
    simp [requestLoop, hfail i]
  | succ b ih =>
    intro i
    rw [requestLoop, hfail i]
    simp only [if_pos rfl]
    rw [ih (i + 1)]
    have h1 : i + 1 + b = i + (b + 1) := by omega
    rw [h1]
    simp

/-- Claim C1, counterexample.  The claim states that a send failing with a
non-network error propagates that error immediately, with no retry attempt.
In the code the retry branch catches `BaseException`, so a non-network
error on the first attempt is retried as well: with `retry = True` and the
default budget 5, a first attempt failing with a non-network exception
followed by a successful second attempt yields success after 2 calls,
instead of propagating the error after 1 call as the claim requires. -/
theorem c1_counterexample :
    Session.request (fun i => if i = 0 then some PyExc.otherExc else none) true 5
      = (Except.ok 0, 2)
    ∧ isNetworkProblem PyExc.otherExc = false
    ∧ Session.request (fun i => if i = 0 then some PyExc.otherExc else none) true 5
      ≠ (Except.error PyExc.otherExc, 1) := by
  refine ⟨rfl, rfl, ?_⟩
  intro h
  rw [show Session.request (fun i => if i = 0 then some PyExc.otherExc else none) true 5
      = (Except.ok 0, 2) from rfl] at h
  simp at h

/-- Claim C1, amended.  `Session._request` retries every exception class
(it catches `BaseException`), not only transient-network errors: with
retries enabled, a send that fails on every attempt performs exactly
`retryLimit` additional attempts (so `retryLimit + 1` calls in total)
before the last failure propagates, regardless of the error class; with
retries disabled, the first failure propagates immediately after one
call. -/
theorem c1_retry_all_exceptions (attempts : Nat → Option PyExc) (e : Nat → PyExc)
    (hfail : ∀ i, attempts i = some (e i)) (retryLimit : Nat) :
    Session.request attempts true retryLimit = (Except.error (e retryLimit), retryLimit + 1)
    ∧ Session.request attempts false retryLimit = (Except.error (e 0), 1) := by
  constructor
  · have h := requestLoop_all_fail attempts e hfail retryLimit 0
    simpa [Session.request] using h
  · cases retryLimit with
    | zero => simp [Session.request, requestLoop, hfail 0]
    | succ b => simp [Session.request, requestLoop, hfail 0]

/-- Claim C1, witness: with every attempt failing with `IOError` and the
default budget 5, the request makes 6 calls and propagates the error. -/
theorem c1_retry_all_exceptions_witness :
    Session.request (fun _ => some PyExc.ioError) true 5
      = (Except.error PyExc.ioError, 6) :=
  (c1_retry_all_exceptions (fun _ => some PyExc.ioError) (fun _ => PyExc.ioError)
    (fun _ => rfl) 5).1

/-- Claim C4: serializing an empty buffer returns an empty record list and
leaves the timestamp bounds `first_ts`/`last_ts` unchanged. -/
theorem c4_empty_buffer (multi : Nat) (st : TsBounds) (tags : Tags)
    (is_final : Bool) :
    get_kpi_body multi st [] tags is_final = ([], st) := rfl

/-- Claim C8: an unrecoverable client-construction failure exits the
process with status 0, a non-zero response from the request path exits
with status 1, and the two statuses are distinct. -/
theorem c8_exit_statuses (n : Nat) (h : n ≠ 0) :
    client_init false = ExitOutcome.exits 0
    ∧ send_kpi_data (Except.ok n) = ExitOutcome.exits 1
    ∧ client_init false ≠ send_kpi_data (Except.ok n) := by
  refine ⟨rfl, ?_, ?_⟩ <;>
    simp [send_kpi_data, send_kpi_check, client_init, h]

/-- Claim C8, witness at the concrete response value 7. -/
theorem c8_exit_statuses_witness :
    client_init false = ExitOutcome.exits 0
    ∧ send_kpi_data (Except.ok 7) = ExitOutcome.exits 1
    ∧ client_init false ≠ send_kpi_data (Except.ok 7) :=
  c8_exit_statuses 7 (by decide)

/-- Claim C3, counterexample.  The claim states that the first non-empty
hit is returned and that a miss continues to the next source.  In the
code, only the config layer is checked for non-emptiness: an environment
variable that is set to the empty string is returned as-is, so resolution
stops there instead of continuing to the file (here containing a
non-empty token). -/
theorem c3_counterexample :
    token_processor "" (some "") "keyfile" (some "secret") = some ""
    ∧ token_processor "" (some "") "keyfile" (some "secret") ≠ some "secret" := by
  exact ⟨rfl, by decide⟩

/-- Claim C3, amended.  Resolution order is config, then environment
variable, then file (whitespace-trimmed); the config value wins whenever
it is non-empty, even when the environment variable is also set; but only
the config layer requires non-emptiness: a set environment variable (or a
readable file) is returned even when its value is empty.  When the config
value is empty, the variable is unset, and the file is unconfigured or
unreadable, the resolver returns `None` and never raises. -/
theorem c3_resolution_order (config : String) (env : Option String)
    (tokenFile : String) (fileContents : Option String) :
    (config ≠ "" → token_processor config env tokenFile fileContents = some config)
    ∧ (config = "" → ∀ t, env = some t →
        token_processor config env tokenFile fileContents = some t)
    ∧ (config = "" → env = none → tokenFile ≠ "" → ∀ c, fileContents = some c →
        token_processor config env tokenFile fileContents = some c.trim)
    ∧ (config = "" → env = none → tokenFile = "" →
        token_processor config env tokenFile fileContents = none)
    ∧ (config = "" → env = none → fileContents = none →
        token_processor config env tokenFile fileContents = none) := by
  refine ⟨?_, ?_, ?_, ?_, ?_⟩
  · intro hc
    simp [token_processor, hc]
  · intro hc t ht
    subst hc ht
    simp [token_processor]
  · intro hc he hf c hcont
    subst hc he hcont
    simp [token_processor, hf]
  · intro hc he hf
    subst hc he hf
    simp [token_processor]
  · intro hc he hcont
    subst hc he hcont
    simp [token_processor]

/-- Claim C3, witness: the config value wins even when the environment
variable and the file are also populated. -/
theorem c3_resolution_order_witness :
    token_processor "cfg" (some "envtok") "keyfile" (some "filetok")
      = some "cfg" :=
  (c3_resolution_order "cfg" (some "envtok") "keyfile" (some "filetok")).1
    (by decide)

/-- Claim C6, counterexample.  The claim states that a search with
`count > 0` makes `dashboard_link` return the found dashboard's permalink.
The code reads `entities[1]`: with `count = 1` and a single found entity
(permalink `"p1"`), the `IndexError` is swallowed by the handler and the
function returns `None`, not the found permalink — and creation is not
invoked either. -/
theorem c6_counterexample :
    dashboard_link ⟨1, [⟨"g1", "p1"⟩]⟩ "created" = ⟨none, 0⟩
    ∧ dashboard_link ⟨1, [⟨"g1", "p1"⟩]⟩ "created" ≠ ⟨some "p1", 0⟩ := by
  exact ⟨rfl, by decide⟩

/-- Claim C6, amended.  When the search returns `count > 0`,
`dashboard_link` returns the permalink of the second search entity
(index 1) without invoking creation when at least two entities are
present, and returns `None` (still without invoking creation) when fewer
than two entities are present; when the search returns `count = 0` it
invokes dashboard creation exactly once and returns the creation
result. -/
theorem c6_lookup_or_create (res : SearchResult) (cr : String) :
    (res.count > 0 → ∀ e, res.entities[1]? = some e →
        dashboard_link res cr = ⟨some e.permalink, 0⟩)
    ∧ (res.count > 0 → res.entities[1]? = none →
        dashboard_link res cr = ⟨none, 0⟩)
    ∧ (res.count = 0 → dashboard_link res cr = ⟨some cr, 1⟩) := by
  refine ⟨?_, ?_, ?_⟩
  · intro hc e he
    simp [dashboard_link, hc, he]
  · intro hc he
    simp [dashboard_link, hc, he]
  · intro hc
    simp [dashboard_link, hc]

/-- Claim C6, witness: two entities found means the second permalink is
returned with no creation call; an empty search creates exactly once. -/
theorem c6_lookup_or_create_witness :
    dashboard_link ⟨2, [⟨"g0", "p0"⟩, ⟨"g1", "p1"⟩]⟩ "created" = ⟨some "p1", 0⟩
    ∧ dashboard_link ⟨0, []⟩ "created" = ⟨some "created", 1⟩ :=
  ⟨(c6_lookup_or_create ⟨2, [⟨"g0", "p0"⟩, ⟨"g1", "p1"⟩]⟩ "created").1
      (by decide) ⟨"g1", "p1"⟩ rfl,
   (c6_lookup_or_create ⟨0, []⟩ "created").2.2 rfl⟩

theorem dashboard_poll_all_none (attempts : Nat → Option (String × String)) :
    ∀ r i, (∀ j, i ≤ j → j ≤ i + r → attempts j = none) →
      dashboard_poll attempts i r = "https://one.newrelic.com/dashboards" := by
  intro r
  induction r with
  | zero =>
    intro i h
    rw [dashboard_poll, h i le_rfl (by omega)]
  | succ r ih =>
    intro i h
    rw [dashboard_poll, h i le_rfl (by omega)]
    exact ih (i + 1) (fun j hj1 hj2 => h j (by omega) (by omega))

theorem dashboard_poll_provenance (attempts : Nat → Option (String × String)) :
    ∀ r i, dashboard_poll attempts i r = "https://one.newrelic.com/dashboards"
      ∨ ∃ j pg, i ≤ j ∧ j ≤ i + r ∧ attempts j = some pg
          ∧ dashboard_poll attempts i r = pg.1 := by
  intro r
  induction r with
  | zero =>
    intro i
    rw [dashboard_poll]
    cases h : attempts i with
    | none => exact Or.inl rfl
    | some pg => exact Or.inr ⟨i, pg, le_rfl, by omega, h, rfl⟩
  | succ r ih =>
    intro i
    rw [dashboard_poll]
    cases h : attempts i with
    | none =>
      rcases ih (i + 1) with h1 | ⟨j, pg, hj1, hj2, hj3, hj4⟩
      · exact Or.inl h1
      · exact Or.inr ⟨j, pg, by omega, by omega, hj3, hj4⟩
    | some pg => exact Or.inr ⟨i, pg, le_rfl, by omega, h, rfl⟩

/-- Claim C7: if the creation stage raises (modelled as `createGuid =
none`), `dashboard_create` returns the fixed fallback URL; if polling
never observes a permalink within the retry budget it also returns the
fallback URL; and in every case the result is either the fallback URL or
a permalink actually observed while polling — `dashboard_create` never
propagates an exception. -/
theorem c7_dashboard_create_fallback (retry_limit : Nat)
    (createGuid : Option String) (attempts : Nat → Option (String × String)) :
    (createGuid = none →
      dashboard_create retry_limit createGuid attempts
        = "https://one.newrelic.com/dashboards")
    ∧ ((∀ i, i ≤ retry_limit → attempts i = none) →
      dashboard_create retry_limit createGuid attempts
        = "https://one.newrelic.com/dashboards")
    ∧ (dashboard_create retry_limit createGuid attempts
        = "https://one.newrelic.com/dashboards"
      ∨ ∃ j pg, j ≤ retry_limit ∧ attempts j = some pg
          ∧ dashboard_create retry_limit createGuid attempts = pg.1) := by
  refine ⟨?_, ?_, ?_⟩
  · intro h
    simp [dashboard_create, h]
  · intro h
    cases hc : createGuid with
    | none => simp [dashboard_create]
    | some g =>
      simp only [dashboard_create]
      exact dashboard_poll_all_none attempts retry_limit 0
        (fun j hj1 hj2 => h j (by omega))
  · cases hc : createGuid with
    | none => exact Or.inl (by simp [dashboard_create])
    | some g =>
      simp only [dashboard_create]
      rcases dashboard_poll_provenance attempts retry_limit 0 with h1 | ⟨j, pg, hj1, hj2, hj3, hj4⟩
      · exact Or.inl h1
      · exact Or.inr ⟨j, pg, by omega, hj3, hj4⟩

/-- Claim C7, witness: with the default budget 5, a successful creation
mutation followed by polling that never sees a permalink falls back to
the generic dashboard URL. -/
theorem c7_dashboard_create_fallback_witness :
    dashboard_create 5 (some "guid") (fun _ => none)
      = "https://one.newrelic.com/dashboards" :=
  (c7_dashboard_create_fallback 5 (some "guid") (fun _ => none)).2.1
    (fun _ _ => rfl)

/-- Claim C9, code evaluation at the failing input.  The retry loop of
`create_pdf` only decrements its counter and never re-issues the
snapshot-URL mutation, so when the first query returns a null link the
link stays null even though a second query would have returned one: no
PDF is fetched and the failure is downgraded to a warning.  The last
conjunct shows the success path that the claim expects is reachable only
when the very first query already returns a link. -/
theorem c9_no_link_retry :
    create_pdf 5 (fun i => if i = 0 then some none else some (some "snapurl"))
      (fun _ => true) true = PdfOutcome.linkWarning
    ∧ pdf_retry_loop none 5 = none
    ∧ create_pdf 5 (fun _ => some (some "snapurl")) (fun _ => true) true
      = PdfOutcome.saved :=
  ⟨rfl, rfl, rfl⟩

/-- Claim C5, counterexample.  The claim quantifies over every non-empty
buffer, but `get_kpi_body` only looks at `data_buffer[0]` and
`data_buffer[-1]`: serializing a buffer whose windows are not in time
order (timestamps 5 then 3) leaves `first_ts = 5`, which is not ≤ the
minimum observed window timestamp 3. -/
theorem c5_counterexample :
    (get_kpi_body 1000 ⟨sysMaxsize, 0⟩ [⟨5, [], []⟩, ⟨3, [], []⟩] [] false).2.first_ts = 5
    ∧ ¬ (get_kpi_body 1000 ⟨sysMaxsize, 0⟩ [⟨5, [], []⟩, ⟨3, [], []⟩] [] false).2.first_ts ≤ 3 := by
  exact ⟨by decide, by decide⟩

theorem tsMono_head_le (dp : DataPoint) (rest : List DataPoint)
    (h : tsMono (dp :: rest)) :
    ∀ x ∈ dp :: rest, dp.timestamp ≤ x.timestamp := by
  intro x hx
  rcases List.mem_cons.mp hx with hx | hx
  · subst hx; exact le_rfl
  · exact (List.pairwise_cons.mp h).1 x hx

theorem tsMono_le_getLastD (a : DataPoint) (t : List DataPoint)
    (h : tsMono (a :: t)) :
    ∀ x ∈ a :: t, x.timestamp ≤ ((a :: t).getLastD a).timestamp := by
  induction t generalizing a with
  | nil =>
    intro x hx
    rcases List.mem_cons.mp hx with hx | hx
    · subst hx; exact le_rfl
    · cases hx
  | cons b t2 ih =>
    intro x hx
    have hpair := List.pairwise_cons.mp h
    have hrec := ih b hpair.2
    have hlast : ((a :: b :: t2).getLastD a) = ((b :: t2).getLastD b) := by
      simp [List.getLastD]
    rw [hlast]
    rcases List.mem_cons.mp hx with hx | hx
    · subst hx
      exact le_trans (hpair.1 b (List.mem_cons_self b t2)) (hrec b (List.mem_cons_self b t2))
    · exact hrec x hx

theorem get_kpi_body_bounds (multi : Nat) (tags : Tags) (st : TsBounds)
    (buf : List DataPoint) (h : tsMono buf) :
    (get_kpi_body multi st buf tags false).2.first_ts ≤ st.first_ts
    ∧ st.last_ts ≤ (get_kpi_body multi st buf tags false).2.last_ts
    ∧ ∀ dp ∈ buf, (get_kpi_body multi st buf tags false).2.first_ts ≤ dp.timestamp
        ∧ dp.timestamp ≤ (get_kpi_body multi st buf tags false).2.last_ts := by
  cases buf with
  | nil =>
    refine ⟨le_rfl, le_rfl, ?_⟩
    intro dp hdp
    cases hdp
  | cons a t =>
    refine ⟨min_le_left _ _, le_max_left _ _, ?_⟩
    intro dp hdp
    constructor
    · exact le_trans (min_le_right _ _) (tsMono_head_le a t h dp hdp)
    · exact le_trans (tsMono_le_getLastD a t h dp hdp) (le_max_right _ _)

/-- Claim C5, amended.  The code updates the bounds from
`data_buffer[0]` and `data_buffer[-1]` only, so the claimed invariant
holds for buffers whose window timestamps are non-decreasing (as produced
by the aggregator): across any sequence of serialization calls on such
buffers, `first_ts` ends up ≤ every window timestamp ever flushed and
`last_ts` ends up ≥ every one, and each call moves `first_ts` monotonically
non-increasing and `last_ts` monotonically non-decreasing. -/
theorem c5_bounds_invariant (multi : Nat) (tags : Tags) (st : TsBounds)
    (runs : List (List DataPoint)) (hs : ∀ buf ∈ runs, tsMono buf) :
    (serialize_runs multi tags st runs).first_ts ≤ st.first_ts
    ∧ st.last_ts ≤ (serialize_runs multi tags st runs).last_ts
    ∧ ∀ buf ∈ runs, ∀ dp ∈ buf,
        (serialize_runs multi tags st runs).first_ts ≤ dp.timestamp
        ∧ dp.timestamp ≤ (serialize_runs multi tags st runs).last_ts := by
  induction runs generalizing st with
  | nil =>
    refine ⟨le_rfl, le_rfl, ?_⟩
    intro buf hbuf
    cases hbuf
  | cons buf rest ih =>
    have hmono : tsMono buf := hs buf (List.mem_cons_self buf rest)
    have hstep := get_kpi_body_bounds multi tags st buf hmono
    have hrest := ih ((get_kpi_body multi st buf tags false).2)
      (fun b hb => hs b (List.mem_cons_of_mem buf hb))
    have hrun : serialize_runs multi tags st (buf :: rest)
        = serialize_runs multi tags ((get_kpi_body multi st buf tags false).2) rest := rfl
    refine ⟨?_, ?_, ?_⟩
    · rw [hrun]
      exact le_trans hrest.1 hstep.1
    · rw [hrun]
      exact le_trans hstep.2.1 hrest.2.1
    · intro b hb dp hdp
      rcases List.mem_cons.mp hb with hb | hb
      · subst hb
        have hd := hstep.2.2 dp hdp
        rw [hrun]
        exact ⟨le_trans hrest.1 hd.1, le_trans hd.2 hrest.2.1⟩
      · rw [hrun]
        exact hrest.2.2 b hb dp hdp

/-- Claim C5, witness: one sorted buffer with timestamps 3 and 5, starting
from the initial bounds, ends with `first_ts ≤ 3` and `5 ≤ last_ts`. -/
theorem c5_bounds_invariant_witness :
    (serialize_runs 1000 [] ⟨sysMaxsize, 0⟩ [[⟨3, [], []⟩, ⟨5, [], []⟩]]).first_ts ≤ 3
    ∧ 5 ≤ (serialize_runs 1000 [] ⟨sysMaxsize, 0⟩ [[⟨3, [], []⟩, ⟨5, [], []⟩]]).last_ts := by
  have h := c5_bounds_invariant 1000 [] ⟨sysMaxsize, 0⟩ [[⟨3, [], []⟩, ⟨5, [], []⟩]]
    (by intro buf hbuf
        simp at hbuf
        subst hbuf
        simp [tsMono])
  exact ⟨(h.2.2 [⟨3, [], []⟩, ⟨5, [], []⟩] (by simp) ⟨3, [], []⟩ (by simp)).1,
         (h.2.2 [⟨3, [], []⟩, ⟨5, [], []⟩] (by simp) ⟨5, [], []⟩ (by simp)).2⟩

theorem end_time_mem_convert_current (multi : Nat) (item : KPISet) (t : Nat)
    (g : Tags) : ∀ r ∈ convert_current_data multi item t g, r.end_time_ms = t := by
  intro r hr
  simp only [convert_current_data, List.mem_append, List.mem_cons,
    List.mem_map, List.not_mem_nil, or_false] at hr
  rcases hr with (hr | hr) | hr
  · rcases hr with hr | hr | hr | hr | hr | hr | hr | hr <;> (subst hr; rfl)
  · rcases hr with ⟨pv, hpv, hr⟩
    subst hr; rfl
  · rcases hr with ⟨rc, hrc, hr⟩
    subst hr; rfl

theorem end_time_mem_convert_cumulative (multi : Nat) (item : KPISet) (t : Nat)
    (g : Tags) : ∀ r ∈ convert_cumulative_data multi item t g, r.end_time_ms = t := by
  intro r hr
  simp only [convert_cumulative_data, List.mem_map] at hr
  rcases hr with ⟨pv, hpv, hr⟩
  subst hr; rfl

theorem end_time_mem_convert_datapoint (multi : Nat) (tags : Tags)
    (dp : DataPoint) :
    ∀ r ∈ convert_datapoint multi tags dp, r.end_time_ms = dp.timestamp * multi := by
  intro r hr
  simp only [convert_datapoint, List.mem_append] at hr
  rcases hr with hr | hr
  · rcases List.mem_flatMap.mp hr with ⟨lk, _, hmem⟩
    exact end_time_mem_convert_current multi lk.2 (dp.timestamp * multi) _ r hmem
  · rcases List.mem_flatMap.mp hr with ⟨lk, _, hmem⟩
    exact end_time_mem_convert_cumulative multi lk.2 (dp.timestamp * multi) _ r hmem

theorem mem_get_kpi_body_end_time (multi : Nat) (st : TsBounds)
    (buffer : List DataPoint) (g : Tags) (f : Bool) :
    ∀ r ∈ (get_kpi_body multi st buffer g f).1,
      ∃ dp ∈ buffer, r.end_time_ms = dp.timestamp * multi := by
  intro r hr
  cases buffer with
  | nil => cases hr
  | cons a t =>
    simp only [get_kpi_body] at hr
    rcases List.mem_flatMap.mp hr with ⟨dp, hdp, hmem⟩
    exact ⟨dp, hdp, end_time_mem_convert_datapoint multi g dp r hmem⟩

theorem convert_current_min_record (multi : Nat) (item : KPISet) (t : Nat)
    (g : Tags) :
    (convert_current_data multi item t g)[3]?
      = some ⟨"bztmin", multi * ((plookup item.percentiles "0.0").getD 0),
              setTag g "timestamp" (TagVal.n t), t⟩ := by
  cases h : plookup item.percentiles "0.0" with
  | none => simp [convert_current_data, h]
  | some v => simp [convert_current_data, h]

theorem convert_current_max_record (multi : Nat) (item : KPISet) (t : Nat)
    (g : Tags) :
    (convert_current_data multi item t g)[4]?
      = some ⟨"bztmax", multi * ((plookup item.percentiles "100.0").getD 0),
              setTag g "timestamp" (TagVal.n t), t⟩ := by
  cases h : plookup item.percentiles "100.0" with
  | none => simp [convert_current_data, h]
  | some v => simp [convert_current_data, h]

/-- Claim C2: every serialized record carries the end-time of its window's
timestamp scaled by the multiplier; the `bztmin`/`bztmax` records hold the
multiplier times the percentile values at keys `"0.0"`/`"100.0"` (0 when
the key is absent); every percentile key `p` yields a `bztp<p>` record of
the multiplier times its value; every response code yields one `bztcode`
record; and the concrete window of the claim (percentiles 0.0 ↦ 10,
100.0 ↦ 500, 50.0 ↦ 120, multiplier 1000) yields min 10000, max 500000, a
percentile-50 record of 120000, one record per response code present, and
a window without the `"0.0"`/`"100.0"` keys yields min 0 and max 0. -/
theorem c2_record_scaling (multi : Nat) (item : KPISet) (ts : Nat) (g : Tags)
    (st : TsBounds) (buffer : List DataPoint) (f : Bool) :
    (∀ r ∈ (get_kpi_body multi st buffer g f).1,
        ∃ dp ∈ buffer, r.end_time_ms = dp.timestamp * multi)
    ∧ (convert_current_data multi item ts g)[3]?
        = some ⟨"bztmin", multi * ((plookup item.percentiles "0.0").getD 0),
                setTag g "timestamp" (TagVal.n ts), ts⟩
    ∧ (convert_current_data multi item ts g)[4]?
        = some ⟨"bztmax", multi * ((plookup item.percentiles "100.0").getD 0),
                setTag g "timestamp" (TagVal.n ts), ts⟩
    ∧ (∀ pv ∈ item.percentiles,
        (⟨"bztp" ++ pv.1, multi * pv.2, setTag g "timestamp" (TagVal.n ts), ts⟩ : GaugeMetric)
          ∈ convert_current_data multi item ts g)
    ∧ (∀ rc ∈ item.resp_codes,
        (⟨"bztcode", rc.2, setTag (setTag g "timestamp" (TagVal.n ts)) "rc" (TagVal.s rc.1), ts⟩ : GaugeMetric)
          ∈ convert_current_data multi item ts g)
    ∧ ((convert_current_data 1000 c2exampleKPI 7000 [])[3]?.map GaugeMetric.value
          = some 10000
       ∧ (convert_current_data 1000 c2exampleKPI 7000 [])[4]?.map GaugeMetric.value
          = some 500000
       ∧ (⟨"bztp50.0", 120000, [("timestamp", TagVal.n 7000)], 7000⟩ : GaugeMetric)
          ∈ convert_current_data 1000 c2exampleKPI 7000 []
       ∧ ((convert_current_data 1000 c2exampleKPI 7000 []).filter
            (fun r => r.name == "bztcode")).length = 2
       ∧ (convert_current_data 1000 ⟨0, 0, 0, 0, 0, 0, [], []⟩ 7000 [])[3]?.map GaugeMetric.value
          = some 0
       ∧ (convert_current_data 1000 ⟨0, 0, 0, 0, 0, 0, [], []⟩ 7000 [])[4]?.map GaugeMetric.value
          = some 0) := by
  refine ⟨mem_get_kpi_body_end_time multi st buffer g f,
    convert_current_min_record multi item ts g,
    convert_current_max_record multi item ts g, ?_, ?_, by decide⟩
  · intro pv hpv
    simp only [convert_current_data]
    exact List.mem_append_left _
      (List.mem_append_right _ (List.mem_map_of_mem _ hpv))
  · intro rc hrc
    simp only [convert_current_data]
    exact List.mem_append_right _ (List.mem_map_of_mem _ hrc)

/-- Claim C2, witness: the `bztmin` record of the concrete window of the
claim, via the general statement. -/
theorem c2_record_scaling_witness :
    (convert_current_data 1000 c2exampleKPI 7000 [])[3]?
      = some ⟨"bztmin", 10000, [("timestamp", TagVal.n 7000)], 7000⟩ :=
  (c2_record_scaling 1000 c2exampleKPI 7000 [] ⟨0, 0⟩ [] false).2.1

/-- Claim C10: when the wrapped serialize-and-send raises an `IOError` or
network-class error on the first attempt, the decorator sleeps for the
session timeout and re-runs the whole method exactly once on the same
buffer (re-serializing, which re-applies the timestamp-bound update); a
second attempt that succeeds or fails with a network-class error is
swallowed, while a non-network error from the second attempt propagates
to the caller. -/
theorem c10_uploader_retry (multi : Nat) (g : Tags) (timeout : Nat)
    (st : TsBounds) (buffer : List DataPoint) (e1 : PyExc) (o2 : Option PyExc)
    (h1 : isNetworkProblem e1 = true) :
    (send_with_retry multi g timeout st buffer (some e1) o2).attempts = 2
    ∧ (send_with_retry multi g timeout st buffer (some e1) o2).slept = some timeout
    ∧ (send_with_retry multi g timeout st buffer (some e1) o2).state
        = (get_kpi_body multi (get_kpi_body multi st buffer g false).2 buffer g false).2
    ∧ (o2 = none →
        (send_with_retry multi g timeout st buffer (some e1) o2).propagated = none)
    ∧ (∀ e2, o2 = some e2 → isNetworkProblem e2 = true →
        (send_with_retry multi g timeout st buffer (some e1) o2).propagated = none)
    ∧ (∀ e2, o2 = some e2 → isNetworkProblem e2 = false →
        (send_with_retry multi g timeout st buffer (some e1) o2).propagated = some e2) := by
  have hc : caughtByIOErrorOrTNE e1 = true := by
    rw [caughtByIOErrorOrTNE_eq_isNetworkProblem]
    exact h1
  cases o2 with
  | none => simp [send_with_retry, send_data, hc]
  | some e2 =>
    cases he2 : isNetworkProblem e2 with
    | true => simp [send_with_retry, send_data, hc, he2]
    | false => simp [send_with_retry, send_data, hc, he2]

/-- Claim C10, witness: a first-attempt `IOError` followed by a
second-attempt `SSLError` is swallowed after two attempts, while a
second-attempt non-network error propagates. -/
theorem c10_uploader_retry_witness :
    (send_with_retry 1000 [] 30 ⟨sysMaxsize, 0⟩ [] (some PyExc.ioError)
        (some PyExc.sslError)).propagated = none
    ∧ (send_with_retry 1000 [] 30 ⟨sysMaxsize, 0⟩ [] (some PyExc.ioError)
        (some PyExc.otherExc)).propagated = some PyExc.otherExc
    ∧ (send_with_retry 1000 [] 30 ⟨sysMaxsize, 0⟩ [] (some PyExc.ioError)
        (some PyExc.sslError)).attempts = 2 := by
  have ha := c10_uploader_retry 1000 [] 30 ⟨sysMaxsize, 0⟩ []
    PyExc.ioError (some PyExc.sslError) rfl
  have hb := c10_uploader_retry 1000 [] 30 ⟨sysMaxsize, 0⟩ []
    PyExc.ioError (some PyExc.otherExc) rfl
  exact ⟨ha.2.2.2.2.1 PyExc.sslError rfl rfl,
         hb.2.2.2.2.2 PyExc.otherExc rfl rfl, ha.1⟩

end NewRelic
